import Mathlib

/-!
# Verification of the SAS form-automation orchestration layer

A shallow embedding of `sas_automation.py` (class `SASFormAutomator`) and the
sequential driver loop in `sas_web_app.py`.  Pure data transformations (row
reading, badge normalization) become Lean functions on explicit cell values;
the stateful pieces (retry loop, checkpoint store, worker pool, browser
restart counter) become explicit state-passing functions parameterised by an
environment that supplies the results of external effects (submission
attempts, browser launches, liveness probes).
-/

deriving instance DecidableEq for Except

namespace SAS

/-! ## Data model (`read_excel` / `fill_form` records) -/

/-- Outcome status, the `status` field of a result record. -/
inductive Status
  | success
  | failed
deriving DecidableEq, Repr

/-- A task record, one normalized spreadsheet row (`read_excel`, lines 237-244). -/
structure Student where
  firstName : String
  lastName : String
  email : String
  certificationName : String
  certificationLink : String
  badgeOptIn : String
deriving DecidableEq, Repr

/-- An outcome record as built by `fill_form` / `_fill_form_single`
(lines 350-357 and 452-459). -/
structure Outcome where
  email : String
  firstName : String
  lastName : String
  certificationName : String
  status : Status
  message : String
deriving DecidableEq, Repr

/-! ## Row Reader (`read_excel`, pandas path, lines 183-248)

A spreadsheet cell as seen through pandas: `none` is a missing value (NaN),
`some s` is the textual content of the cell.  Python's `str()` renders NaN as
the three-character string `"nan"`. -/

/-- A pandas cell: `none` models NaN. -/
abbrev Cell := Option String

/-- `str(cell)` in Python: NaN stringifies to `"nan"`. -/
def pdStr : Cell → String
  | none => "nan"
  | some s => s

/-- Python `str.strip()`: drop whitespace from both ends. -/
def pyStrip (s : String) : String :=
  String.mk (((s.data.dropWhile Char.isWhitespace).reverse.dropWhile
    Char.isWhitespace).reverse)

/-- Python `str.lower()` on the ASCII range. -/
def pyLower (s : String) : String :=
  String.mk (s.data.map Char.toLower)

/-- One spreadsheet row.  For each known column, `none` means the sheet has no
column matched by the case-insensitive header scan (lines 194-209); otherwise
`some cell` is the row's cell in that column.  `otherCells` are the cells of
columns not matched to any field (they participate in `row.isna().all()`). -/
structure RawRow where
  firstName : Option Cell
  lastName : Option Cell
  email : Option Cell
  certificationName : Option Cell
  certificationLink : Option Cell
  badgeOptIn : Option Cell
  otherCells : List Cell
deriving DecidableEq, Repr

/-- `str(row.get(col, dflt)).strip() if col_map.get(f) else dflt`
(lines 219-223).  When the column is mapped it always exists in the frame, so
the `row.get` default never fires; a NaN cell therefore stringifies to
`"nan"`. -/
def getField (c : Option Cell) (dflt : String) : String :=
  match c with
  | none => dflt
  | some cell => pyStrip (pdStr cell)

/-- The truthy tokens of the badge normalization (line 231). -/
def truthyTokens : List String := ["yes", "y", "1", "true", "ok"]

/-- Badge Opt-In normalization (lines 226-231): absent column gives raw `None`
(`pd.isna(None)` holds); a NaN cell is blank; otherwise the literal values
`""`, `" "`, `"None"`, `"none"` give `"yes"`, and any other value is stripped,
lower-cased and compared against the truthy tokens. -/
def normalizeBadge (c : Option Cell) : String :=
  match c with
  | none => "yes"
  | some none => "yes"
  | some (some v) =>
    if v = "" ∨ v = " " ∨ v = "None" ∨ v = "none" then "yes"
    else if pyLower (pyStrip v) ∈ truthyTokens then "yes" else "no"

/-- `row.isna().all()` (line 215): every cell of the row is NaN.  A field whose
column is absent contributes no cell. -/
def RawRow.allBlank (r : RawRow) : Bool :=
  (r.firstName.getD none).isNone && (r.lastName.getD none).isNone &&
  (r.email.getD none).isNone && (r.certificationName.getD none).isNone &&
  (r.certificationLink.getD none).isNone && (r.badgeOptIn.getD none).isNone &&
  r.otherCells.all Option.isNone

/-- What `read_excel` does with one row: a task record, a skip with a logged
warning (missing certificate link, lines 233-235), or a silent skip (all-blank
row, lines 215-216). -/
inductive RowResult
  | record (s : Student)
  | skippedWithWarning
  | skippedSilently
deriving DecidableEq, Repr

/-- The per-row body of `read_excel`'s loop (lines 213-245). -/
def readRow (r : RawRow) : RowResult :=
  if r.allBlank then .skippedSilently
  else
    let firstName := getField r.firstName "Unknown"
    let lastName := getField r.lastName "User"
    let email := getField r.email "noemail@example.com"
    let certName := getField r.certificationName ""
    let certLink := getField r.certificationLink ""
    let badgeFinal := normalizeBadge r.badgeOptIn
    if certLink = "" ∨ certLink = "nan" then .skippedWithWarning
    else
      .record
        { firstName := firstName, lastName := lastName, email := email,
          certificationName := certName, certificationLink := certLink,
          badgeOptIn := badgeFinal }

/-- The record a row produces, if any. -/
def RowResult.toRecord : RowResult → Option Student
  | .record s => some s
  | .skippedWithWarning => none
  | .skippedSilently => none

/-- `read_excel` over a whole sheet: one pass, keeping the produced records in
row order (line 245). -/
def readExcel (rows : List RawRow) : List Student :=
  rows.filterMap (fun r => (readRow r).toRecord)

/-! ## Retry Wrapper (`fill_form`, lines 307-357)

The environment supplies the results of the external effects: the result of
each single-attempt submission `_fill_form_single` (by 1-based attempt
number), whether the liveness probe `self.driver.current_url` succeeds after
a failed attempt, and whether the `setup_driver` relaunch performed when the
probe fails succeeds.  `launchErr` is the text of the last engine error when a
relaunch fails, and `screenshotOk` is whether the diagnostic screenshot save
succeeds. -/

/-- External-effect results consumed by one `fill_form` call. -/
structure RetryEnv where
  attemptResult : Nat → Except String Outcome
  browserAlive : Nat → Bool
  relaunchOk : Nat → Bool
  launchErr : String
  screenshotOk : Bool

/-- The backoff sleep taken at the top of attempt number `attempt`
(line 315): `min(2 ** attempt, 10)`. -/
def backoffWait (attempt : Nat) : Nat := min (2 ^ attempt) 10

/-- The message of `setup_driver`'s terminal failure (line 179). -/
def launchFailMsg (lastError : String) : String :=
  "Failed to launch any browser. Last error: " ++ lastError

/-- The message of the Failed outcome after exhausted retries (line 338). -/
def failedMessage (maxRetries : Nat) (lastErr : String) : String :=
  "Failed after " ++ toString maxRetries ++ " attempts: " ++ lastErr

/-- The Failed outcome returned after exhausted retries (lines 350-357). -/
def failedOutcome (s : Student) (maxRetries : Nat) (lastErr : String) : Outcome :=
  { email := s.email, firstName := s.firstName, lastName := s.lastName,
    certificationName := s.certificationName, status := .failed,
    message := failedMessage maxRetries lastErr }

/-- What one `fill_form` call did: its result (`Except.error` is an exception
propagating out of `fill_form`, which happens when a `setup_driver` relaunch
inside the retry loop raises), the number of `_fill_form_single` invocations,
the backoff sleeps taken in order, and whether the diagnostic screenshot was
attempted. -/
structure FillTrace where
  result : Except String Outcome
  invocations : Nat
  delays : List Nat
  screenshotTried : Bool
  screenshotSaved : Bool
deriving DecidableEq, Repr

/-- The retry loop of `fill_form` (lines 311-335) from attempt number
`attempt` with `fuel` attempts remaining, carrying the last error text.  At
`fuel = 0` the loop is exhausted: the diagnostic screenshot is attempted
(best-effort, lines 340-345) and the Failed outcome is returned.  A backoff
sleep precedes every attempt after the first (lines 313-317).  After a failed
attempt with retries remaining, the liveness probe runs (line 330); if it
fails and the relaunch also fails, `setup_driver`'s exception propagates
(line 335). -/
def fillFormGo (env : RetryEnv) (s : Student) (maxRetries : Nat) :
    Nat → Nat → String → FillTrace
  | 0, _, lastErr =>
      { result := .ok (failedOutcome s maxRetries lastErr),
        invocations := 0, delays := [], screenshotTried := true,
        screenshotSaved := env.screenshotOk }
  | fuel + 1, attempt, _ =>
      let ds : List Nat := if 1 < attempt then [backoffWait attempt] else []
      match env.attemptResult attempt with
      | .ok o =>
          { result := .ok o, invocations := 1, delays := ds,
            screenshotTried := false, screenshotSaved := false }
      | .error e =>
          if 0 < fuel ∧ env.browserAlive attempt = false ∧
              env.relaunchOk attempt = false then
            { result := .error (launchFailMsg env.launchErr),
              invocations := 1, delays := ds, screenshotTried := false,
              screenshotSaved := false }
          else
            let rest := fillFormGo env s maxRetries fuel (attempt + 1) e
            { result := rest.result, invocations := rest.invocations + 1,
              delays := ds ++ rest.delays,
              screenshotTried := rest.screenshotTried,
              screenshotSaved := rest.screenshotSaved }

/-- `fill_form(student_data, max_retries)` (line 307).  The initial last
error is Python's `None`, which stringifies to `"None"`. -/
def fillForm (env : RetryEnv) (s : Student) (maxRetries : Nat) : FillTrace :=
  fillFormGo env s maxRetries maxRetries 1 "None"

/-! ## Worker Pool (`process_students_parallel`, lines 555-674) -/

/-- The outcome recorded for one task at the worker boundary: `fill_form`'s
own result, or, when an exception propagated out of it, the error record
built by the worker's handler (lines 619-631). -/
def workerOutcome (s : Student) (r : Except String Outcome) : Outcome :=
  match r with
  | .ok o => o
  | .error e =>
      { email := s.email, firstName := s.firstName, lastName := s.lastName,
        certificationName := s.certificationName, status := .failed,
        message := "Worker error: " ++ e }

/-- The shared state the pool's lock protects: the processed counter, the
shared outcome list, and the checkpoints triggered so far (lines 567-569). -/
structure PoolState where
  processedCount : Nat
  outcomes : List Outcome
  checkpoints : List (Nat × Nat)
deriving DecidableEq, Repr

/-- The shared state before any task completes. -/
def initialPoolState : PoolState :=
  { processedCount := 0, outcomes := [], checkpoints := [] }

/-- The lock-protected completion section of one task (lines 598-615 on the
normal path, lines 628-630 on the exception path): increment the processed
counter and append the task's outcome; on the normal path additionally
trigger a checkpoint at every 50th completion (lines 612-613). -/
def completeTask (total : Nat) (st : PoolState) (s : Student)
    (r : Except String Outcome) : PoolState :=
  let c := st.processedCount + 1
  { processedCount := c,
    outcomes := st.outcomes ++ [workerOutcome s r],
    checkpoints :=
      match r with
      | .ok _ =>
          if c % 50 = 0 then st.checkpoints ++ [(c, total)] else st.checkpoints
      | .error _ => st.checkpoints }

/-- Worker-slot assignment: task `i` goes to slot `i % num_workers`
(line 638). -/
def assignWorkers (numWorkers : Nat) (students : List Student) :
    List (Nat × Student) :=
  ((List.range students.length).zip students).map
    (fun p => (p.1 % numWorkers, p.2))

/-- One dispatched task as the pool's shared state sees it.  The
`get_worker_automator(worker_id)` call (line 593) sits outside the per-task
`try` that begins at line 595: when the slot's `SASFormAutomator`
construction raises (its `__init__` calls `setup_driver`, line 60, which
raises on total launch failure, line 181), the exception escapes
`process_single_student`, surfaces as the future's exception in the
`as_completed` loop where it is only logged (lines 650-654), and the shared
state is never touched — no outcome, no counter increment.  Otherwise the
task runs its lock-protected completion section.  `none` is the former
path; `some r` carries the `fill_form` result of the latter. -/
def dispatchTask (total : Nat) (st : PoolState) (s : Student)
    (r : Option (Except String Outcome)) : PoolState :=
  match r with
  | none => st
  | some res => completeTask total st s res

/-- A run of the pool.  The shared lock serializes the completion sections,
so an execution of the pool is a fold of dispatch steps over the assigned
tasks in completion order: `order` is that completion order, some
permutation of the assigned tasks.  `behavior` gives the slot-dependent fate
of each task: `none` when the slot's pre-try automator lookup raised,
`some r` when the task reached its completion section with `fill_form`
result `r`. -/
def runPool (behavior : Nat → Student → Option (Except String Outcome))
    (total : Nat) (order : List (Nat × Student)) : PoolState :=
  order.foldl (fun st t => dispatchTask total st t.2 (behavior t.1 t.2))
    initialPoolState

/-- The shared-state events of an execution, for the locking discipline. -/
inductive LockEvent
  | acquire
  | increment
  | append (o : Outcome)
  | callback
  | checkpoint
  | release
deriving DecidableEq, Repr

/-- The events that touch the shared state. -/
def LockEvent.isMutation : LockEvent → Bool
  | .increment => true
  | .append _ => true
  | .callback => true
  | .checkpoint => true
  | .acquire => false
  | .release => false

/-- The events one task completion emits: on the normal path the increment,
append, caller callbacks and the (conditional) checkpoint all sit between
`with lock:` entry and exit (lines 598-615); the exception path's increment
and append likewise (lines 628-630). -/
def taskEvents (s : Student) (r : Except String Outcome) : List LockEvent :=
  match r with
  | .ok o =>
      [.acquire, .increment, .append o, .callback, .checkpoint, .release]
  | .error e =>
      [.acquire, .increment, .append (workerOutcome s (.error e)), .release]

/-- The event blocks of a pool run, one per task that reached its completion
section, in completion order.  A dropped task (pre-try automator failure)
never acquires the lock and never touches the shared state, so it emits no
block. -/
def poolBlocks (behavior : Nat → Student → Option (Except String Outcome))
    (order : List (Nat × Student)) : List (List LockEvent) :=
  order.filterMap (fun t => (behavior t.1 t.2).map (taskEvents t.2))

/-- A block that touches the shared state only while holding the lock. -/
def lockedBlock (l : List LockEvent) : Prop :=
  ∃ ms, l = LockEvent.acquire :: ms ++ [LockEvent.release] ∧
    ∀ e ∈ ms, LockEvent.isMutation e = true

/-! ## Checkpoint/Results Store (lines 474-543) -/

/-- The checkpoint record written to `progress.json` (lines 477-482). -/
structure Checkpoint where
  processedCount : Nat
  totalCount : Nat
  lastUpdate : Nat
  resultsCount : Nat
deriving DecidableEq, Repr

/-- The results CSV file: whether its header row was written, and its data
rows. -/
structure CsvFile where
  hasHeader : Bool
  rows : List Outcome
deriving DecidableEq, Repr

/-- The store's in-memory and on-disk state: the in-memory outcome buffer
`self.results`, the checkpoint file, the results file (`none`: the file does
not exist), and the timestamped snapshot copies made by the terminal
`save_results`. -/
structure StoreState where
  results : List Outcome
  checkpointFile : Option Checkpoint
  resultsFile : Option CsvFile
  snapshots : List (List Outcome)
deriving DecidableEq, Repr

/-- `save_results_incremental` (lines 505-521): return at once on an empty
buffer; otherwise append the buffered outcomes to the results file in append
mode, writing the header row only if the file did not yet exist, and clear
the buffer. -/
def saveResultsIncremental (s : StoreState) : StoreState :=
  if s.results = [] then s
  else
    let file : CsvFile :=
      match s.resultsFile with
      | none => { hasHeader := true, rows := s.results }
      | some f => { hasHeader := f.hasHeader, rows := f.rows ++ s.results }
    { s with resultsFile := some file, results := [] }

/-- `save_checkpoint(processed_count, total_count, save_results)`
(lines 474-491): overwrite the checkpoint record wholesale — the new record
carries the two counts, the current timestamp `now`, and the current buffer
length as `results_count` — then, when `save_results` holds, flush the
buffered outcomes. -/
def saveCheckpoint (processed total now : Nat) (saveRes : Bool)
    (s : StoreState) : StoreState :=
  let cp : Checkpoint :=
    { processedCount := processed, totalCount := total,
      lastUpdate := now, resultsCount := s.results.length }
  let s1 := { s with checkpointFile := some cp }
  if saveRes then saveResultsIncremental s1 else s1

/-- `load_checkpoint` (lines 493-503): the recorded processed count if the
file exists, else 0. -/
def loadCheckpoint (s : StoreState) : Nat :=
  match s.checkpointFile with
  | none => 0
  | some c => c.processedCount

/-- The terminal `save_results` (lines 523-543).  The returned Bool is true
exactly when the "No results to save" warning was logged and the call
returned early.  Otherwise the results file is rewritten wholesale from the
buffer (header plus all rows) and a timestamped snapshot copy of it is
created. -/
def saveResultsFinal (s : StoreState) : StoreState × Bool :=
  if s.results = [] then (s, true)
  else
    let file : CsvFile := { hasHeader := true, rows := s.results }
    let s1 : StoreState :=
      { s with resultsFile := some file,
               snapshots := s.snapshots ++ [s.results] }
    (s1, false)

/-! ## Session Manager (`setup_driver`, lines 68-181) -/

/-- The three supported engines. -/
inductive Browser
  | chrome
  | edge
  | firefox
deriving DecidableEq, Repr

/-- The `browser_choice` constructor argument. -/
inductive BrowserChoice
  | auto
  | fixed (b : Browser)
deriving DecidableEq, Repr

/-- The engine attempt order (lines 74-77): `auto` tries Chrome, then Edge,
then Firefox; a specific choice tries only that engine. -/
def browsersToTry : BrowserChoice → List Browser
  | .auto => [.chrome, .edge, .firefox]
  | .fixed b => [b]

/-- The loop of `setup_driver` (lines 81-181) over the engines still to try,
carrying the text of the last launch error.  `launch b` is the external
launch attempt of engine `b`.  Returns the result — the launched engine, or
the terminal error of lines 179-181 raised after the list is exhausted — and
the list of engines attempted, in order. -/
def setupDriverGo (launch : Browser → Except String Unit) :
    List Browser → String → Except String Browser × List Browser
  | [], lastErr => (.error (launchFailMsg lastErr), [])
  | b :: rest, _ =>
      match launch b with
      | .ok _ => (.ok b, [b])
      | .error e =>
          let r := setupDriverGo launch rest e
          (r.1, b :: r.2)

/-- `setup_driver` (line 68): Python's initial `last_error = None`
stringifies to `"None"` in the terminal message. -/
def setupDriver (launch : Browser → Except String Unit)
    (choice : BrowserChoice) : Except String Browser × List Browser :=
  setupDriverGo launch (browsersToTry choice) "None"

/-- Whether an engine launch succeeds. -/
def launchOk (launch : Browser → Except String Unit) (b : Browser) : Bool :=
  match launch b with
  | .ok _ => true
  | .error _ => false

/-! ## Browser restart (`restart_browser_if_needed`, lines 545-553) -/

/-- `restart_browser_if_needed(interval)`: when the
forms-processed-since-restart counter has reached the interval, close and
relaunch the browser and reset the counter to 0.  Returns the new counter
and whether a restart happened. -/
def restartBrowserIfNeeded (interval counter : Nat) : Nat × Bool :=
  if interval ≤ counter then (0, true) else (counter, false)

/-- One iteration of the sequential driver loop (`sas_web_app.py`
lines 227-229): the restart check, then one form, which increments the
counter (`sas_automation.py` lines 348 and 450). -/
def processOneForm (interval counter : Nat) : Nat :=
  (restartBrowserIfNeeded interval counter).1 + 1

/-- The counter after `n` sequential iterations from a fresh browser. -/
def counterAfter (interval : Nat) : Nat → Nat
  | 0 => 0
  | n + 1 => processOneForm interval (counterAfter interval n)

/-! ## Derived characterizations and spec-side definitions -/

/-- A row `read_excel` keeps: not all-blank, and its link field stringifies
neither to the empty string nor to `"nan"` (line 233). -/
def keptRow (r : RawRow) : Bool :=
  !r.allBlank && !(getField r.certificationLink "" == "") &&
    !(getField r.certificationLink "" == "nan")

/-- The task record a kept row yields (lines 219-231 and 237-244). -/
def rowRecord (r : RawRow) : Student :=
  { firstName := getField r.firstName "Unknown",
    lastName := getField r.lastName "User",
    email := getField r.email "noemail@example.com",
    certificationName := getField r.certificationName "",
    certificationLink := getField r.certificationLink "",
    badgeOptIn := normalizeBadge r.badgeOptIn }

/-- Modelled from the claim: C4's stated normalization rule — a blank or
absent value yields "yes", a value whose lower-cased stripped form is a
truthy token yields "yes", and every other value yields "no" (blank read
generously as whitespace-only). -/
def claimBadgeNormalize (c : Option Cell) : String :=
  match c with
  | none => "yes"
  | some none => "yes"
  | some (some v) =>
    if pyStrip v = "" then "yes"
    else if pyLower (pyStrip v) ∈ truthyTokens then "yes" else "no"

/-! ## Concrete fixtures -/

/-- Row constructor, fields in column order. -/
def mkRow (f l e cn link b : Option Cell) (oc : List Cell) : RawRow :=
  { firstName := f, lastName := l, email := e, certificationName := cn,
    certificationLink := link, badgeOptIn := b, otherCells := oc }

/-- Checkpoint constructor, fields in record order. -/
def mkCheckpoint (p t n rc : Nat) : Checkpoint :=
  { processedCount := p, totalCount := t, lastUpdate := n,
    resultsCount := rc }

/-- A sample task record. -/
def student0 : Student :=
  { firstName := "Ada", lastName := "Lovelace", email := "ada@example.com",
    certificationName := "SAS Base",
    certificationLink := "http://forms.example/f", badgeOptIn := "yes" }

/-- A second sample task record. -/
def student1 : Student :=
  { firstName := "Bob", lastName := "Ray", email := "bob@example.com",
    certificationName := "SAS Advanced",
    certificationLink := "http://forms.example/g", badgeOptIn := "no" }

/-- A sample successful outcome. -/
def outcome0 : Outcome :=
  { email := "ada@example.com", firstName := "Ada", lastName := "Lovelace",
    certificationName := "SAS Base", status := .success,
    message := "Completed successfully" }

/-- An environment whose submission attempts always fail while the browser
stays responsive. -/
def envAlwaysFail : RetryEnv :=
  { attemptResult := fun _ => .error "element not found",
    browserAlive := fun _ => true,
    relaunchOk := fun _ => true,
    launchErr := "", screenshotOk := true }

/-- An environment whose first attempt fails with a dead browser and whose
relaunch also fails. -/
def envRelaunchFail : RetryEnv :=
  { attemptResult := fun _ => .error "boom",
    browserAlive := fun _ => false,
    relaunchOk := fun _ => false,
    launchErr := "no chromedriver", screenshotOk := true }

/-- A row whose link cell holds the literal three-character text "nan". -/
def rowNanLink : RawRow :=
  mkRow (some (some "Ann")) (some (some "Lee")) (some (some "a@b.com"))
    none (some (some "nan")) none []

/-- A row with a blank First Name cell in a present column and a good
link. -/
def rowBlankFirstName : RawRow :=
  mkRow (some none) (some (some "Lee")) (some (some "a@b.com"))
    none (some (some "http://x")) none []

/-- The record `read_excel` makes of `rowBlankFirstName`. -/
def studentNanName : Student :=
  { firstName := "nan", lastName := "Lee", email := "a@b.com",
    certificationName := "", certificationLink := "http://x",
    badgeOptIn := "yes" }

/-- A store whose in-memory buffer holds one unflushed outcome. -/
def bufferedStore : StoreState :=
  { results := [outcome0], checkpointFile := none, resultsFile := none,
    snapshots := [] }

/-- A store with an empty buffer but an existing results file. -/
def drainedStore : StoreState :=
  { results := [], checkpointFile := some (mkCheckpoint 1 2 7 1),
    resultsFile := some { hasHeader := true, rows := [outcome0] },
    snapshots := [] }

/-- A one-task batch. -/
def students1 : List Student := [student0]

/-- A pool behavior in which every slot's automator construction raises
before the per-task try is entered: `setup_driver` found no launchable
browser, so every dispatched task is dropped. -/
def behaviorLaunchFail : Nat → Student → Option (Except String Outcome) :=
  fun _ _ => none

/-- A pool behavior in which worker slot 0 completes tasks successfully and
every other slot's `fill_form` call lets an exception escape into the
in-try handler. -/
def behaviorMixed : Nat → Student → Option (Except String Outcome) :=
  fun wid s =>
    if wid = 0 then
      some (.ok { email := s.email, firstName := s.firstName,
                  lastName := s.lastName,
                  certificationName := s.certificationName,
                  status := .success,
                  message := "Completed successfully" })
    else some (.error "browser crashed")

/-- The completion order of the one-task batch under one worker. -/
def order1 : List (Nat × Student) := [(0, student0)]

/-! ## Helper lemmas -/

/-- The outcome list a pool fold accumulates: one appended outcome per task
that reached its completion section, in completion order; a dropped task
contributes nothing. -/
theorem dispatchFold_outcomes
    (behavior : Nat → Student → Option (Except String Outcome))
    (total : Nat) (order : List (Nat × Student)) : ∀ st : PoolState,
    (order.foldl (fun st t => dispatchTask total st t.2 (behavior t.1 t.2))
        st).outcomes
      = st.outcomes ++ order.filterMap
          (fun t => (behavior t.1 t.2).map (workerOutcome t.2)) := by
  induction order with
  | nil => intro st; simp
  | cons t rest ih =>
      intro st
      rw [List.foldl_cons, ih]
      cases h : behavior t.1 t.2 with
      | none => simp [dispatchTask, h]
      | some r => simp [dispatchTask, h, completeTask]

/-- The processed counter a pool fold accumulates: one increment per task
that reached its completion section; a dropped task contributes nothing. -/
theorem dispatchFold_count
    (behavior : Nat → Student → Option (Except String Outcome))
    (total : Nat) (order : List (Nat × Student)) : ∀ st : PoolState,
    (order.foldl (fun st t => dispatchTask total st t.2 (behavior t.1 t.2))
        st).processedCount
      = st.processedCount
          + (order.filterMap (fun t => behavior t.1 t.2)).length := by
  induction order with
  | nil => intro st; simp
  | cons t rest ih =>
      intro st
      rw [List.foldl_cons, ih]
      cases h : behavior t.1 t.2 with
      | none => simp [dispatchTask, h]
      | some r =>
          simp [dispatchTask, h, completeTask]
          omega

/-- Every task completion touches the shared state only inside its
acquire-release block. -/
theorem taskEvents_locked (s : Student) (r : Except String Outcome) :
    lockedBlock (taskEvents s r) := by
  cases r with
  | ok o =>
      refine ⟨[.increment, .append o, .callback, .checkpoint], rfl, ?_⟩
      intro e he
      fin_cases he <;> rfl
  | error e =>
      refine ⟨[.increment, .append (workerOutcome s (.error e))], rfl, ?_⟩
      intro x hx
      fin_cases hx <;> rfl

/-- What one row contributes to `read_excel`'s output: a record exactly when
the row is kept. -/
theorem readRow_toRecord (r : RawRow) :
    (readRow r).toRecord =
      if keptRow r then some (rowRecord r) else none := by
  by_cases hb : r.allBlank
  · simp [readRow, keptRow, hb, RowResult.toRecord]
  · rw [Bool.not_eq_true] at hb
    by_cases h1 : getField r.certificationLink "" = ""
    · simp [readRow, keptRow, hb, h1, RowResult.toRecord]
    · by_cases h2 : getField r.certificationLink "" = "nan"
      · simp [readRow, keptRow, hb, h1, h2, RowResult.toRecord]
      · simp [readRow, keptRow, hb, h1, h2, RowResult.toRecord, rowRecord]

/-- The result of `fill_form` does not depend on whether the diagnostic
screenshot save succeeds: the code swallows its failure. -/
theorem fillFormGo_screenshot_indep (env : RetryEnv) (s : Student)
    (m : Nat) (b : Bool) : ∀ fuel a le,
    (fillFormGo { env with screenshotOk := b } s m fuel a le).result
      = (fillFormGo env s m fuel a le).result := by
  intro fuel
  induction fuel with
  | zero => intro a le; rfl
  | succ n ih =>
      intro a le
      simp only [fillFormGo]
      cases h : env.attemptResult a with
      | ok o => simp [h]
      | error e =>
          simp only [h]
          split <;> simp [ih]

/-- The loop of `setup_driver`: its result is the first engine of the list
that launches, its terminal error occurs exactly when none does, and the
attempted engines are the failing ones up to and including the first
success. -/
theorem setupDriverGo_spec (launch : Browser → Except String Unit)
    (l : List Browser) : ∀ le : String,
    (setupDriverGo launch l le).1.toOption = l.find? (launchOk launch) ∧
    (setupDriverGo launch l le).2 =
      l.takeWhile (fun x => !launchOk launch x) ++
        (l.find? (launchOk launch)).toList := by
  induction l with
  | nil => intro le; simp [setupDriverGo, Except.toOption]
  | cons b rest ih =>
      intro le
      cases h : launch b with
      | ok u =>
          have hb : launchOk launch b = true := by simp [launchOk, h]
          simp [setupDriverGo, h, hb, List.find?, Except.toOption]
      | error e =>
          have hb : launchOk launch b = false := by simp [launchOk, h]
          simp [setupDriverGo, h, hb, List.find?, ih e]

/-! ## Claim theorems -/

/-- C1 counterexample: with a submitter that fails every attempt, the
backoff sleeps of `fill_form` are 4 seconds then 8 seconds — the value of
`min(2 ** attempt, 10)` at attempt numbers 2 and 3 — not the 2 seconds then
4 seconds the claim states, even though the submitter is indeed invoked
exactly 3 times and a Failed outcome is returned. -/
theorem C1_counterexample :
    (fillForm envAlwaysFail student0 3).delays = [4, 8] ∧
    (fillForm envAlwaysFail student0 3).delays ≠ [2, 4] ∧
    (fillForm envAlwaysFail student0 3).invocations = 3 ∧
    (fillForm envAlwaysFail student0 3).result
      = .ok (failedOutcome student0 3 "element not found") := by decide

/-- C1 (amended): for every task record and every environment in which each
single-attempt submission fails and the browser probe after each failed
attempt succeeds or the subsequent relaunch succeeds, `fill_form` invokes
the single-attempt submitter exactly 3 times, waiting `min(2 ** n, 10)`
seconds before each retry where `n` is the number of the upcoming attempt —
observed as backoff delays of 4s then 8s — and then returns a Failed outcome
carrying the last error's message. -/
theorem C1_retry_bound (env : RetryEnv) (s : Student)
    (hfail : ∀ n, ∃ e, env.attemptResult n = .error e)
    (hsafe : ∀ n, env.browserAlive n = true ∨ env.relaunchOk n = true) :
    (fillForm env s 3).invocations = 3 ∧
    (fillForm env s 3).delays = [backoffWait 2, backoffWait 3] ∧
    (fillForm env s 3).delays = [4, 8] ∧
    ∃ e, env.attemptResult 3 = .error e ∧
      (fillForm env s 3).result = .ok (failedOutcome s 3 e) := by
  obtain ⟨e1, h1⟩ := hfail 1
  obtain ⟨e2, h2⟩ := hfail 2
  obtain ⟨e3, h3⟩ := hfail 3
  have hc1 : ¬(env.browserAlive 1 = false ∧ env.relaunchOk 1 = false) := by
    rcases hsafe 1 with h | h <;> simp [h]
  have hc2 : ¬(env.browserAlive 2 = false ∧ env.relaunchOk 2 = false) := by
    rcases hsafe 2 with h | h <;> simp [h]
  refine ⟨?_, ?_, ?_, e3, h3, ?_⟩ <;>
    simp [fillForm, fillFormGo, h1, h2, h3, hc1, hc2, backoffWait]

/-- C1 witness: the amended retry-bound theorem at the concrete
always-failing environment. -/
theorem C1_retry_bound_witness :
    (fillForm envAlwaysFail student0 3).invocations = 3 ∧
    (fillForm envAlwaysFail student0 3).delays
      = [backoffWait 2, backoffWait 3] ∧
    (fillForm envAlwaysFail student0 3).delays = [4, 8] ∧
    ∃ e, envAlwaysFail.attemptResult 3 = .error e ∧
      (fillForm envAlwaysFail student0 3).result
        = .ok (failedOutcome student0 3 e) :=
  C1_retry_bound envAlwaysFail student0
    (fun _ => ⟨"element not found", rfl⟩) (fun _ => Or.inl rfl)

/-- Every block a pool run emits — one per task that reached its completion
section — touches the shared state only while holding the lock; a dropped
task emits no block because it never reaches the lock. -/
theorem poolBlocks_locked
    (behavior : Nat → Student → Option (Except String Outcome))
    (order : List (Nat × Student)) :
    ∀ blk ∈ poolBlocks behavior order, lockedBlock blk := by
  intro blk hblk
  obtain ⟨t, ht, hmap⟩ := List.mem_filterMap.mp hblk
  obtain ⟨r, hr, hfx⟩ := Option.map_eq_some'.mp hmap
  rw [← hfx]
  exact taskEvents_locked t.2 r

/-- C2 code bug: dispatching a batch of one task to a worker slot whose
automator construction raises before the per-task try leaves the pool run
with no outcome record and a zero processed counter — the task is silently
dropped, where the claim (and the spec's worker-boundary conversion rule)
requires exactly one outcome per task.  By contrast a task whose slot does
reach its completion section contributes exactly one outcome. -/
theorem C2_dropped_task :
    students1.length = 1 ∧
    (runPool behaviorLaunchFail 1 order1).outcomes = [] ∧
    (runPool behaviorLaunchFail 1 order1).processedCount = 0 ∧
    (runPool behaviorMixed 1 order1).outcomes.length = 1 ∧
    (runPool behaviorMixed 1 order1).processedCount = 1 := by decide

/-- C3 counterexample: a row whose link cell holds the literal non-blank
text "nan" produces no task record, and a row whose First Name cell is blank
while its column is present yields the literal "nan" as first name, not the
claimed "Unknown" default. -/
theorem C3_counterexample :
    readRow rowNanLink = .skippedWithWarning ∧
    readRow rowBlankFirstName = .record studentNanName ∧
    studentNanName.firstName = "nan" := by decide

/-- C3 (amended): `read_excel` produces exactly one task record per kept row
— a row that is not all-blank and whose link field stringifies neither to
the empty string nor to "nan"; an all-blank row is skipped silently and any
other non-kept row is skipped with a warning; the "Unknown", "User" and
"noemail@example.com" placeholders apply only when the respective column is
absent from the sheet, while a blank cell in a present column stringifies to
"nan" and is used as-is. -/
theorem C3_row_reader (rows : List RawRow) (r : RawRow) (dflt : String) :
    readExcel rows = (rows.filter keptRow).map rowRecord ∧
    (readRow r = .skippedSilently ↔ r.allBlank = true) ∧
    (readRow r = .skippedWithWarning ↔
      r.allBlank = false ∧ keptRow r = false) ∧
    getField none dflt = dflt ∧
    getField (some none) dflt = "nan" := by
  refine ⟨?_, ?_, ?_, rfl, rfl⟩
  · induction rows with
    | nil => simp [readExcel]
    | cons r0 rest ih =>
        by_cases hk : keptRow r0 <;>
          simp [readExcel, List.filterMap_cons, readRow_toRecord, hk, ih,
            List.filter_cons] at ih ⊢ <;> simpa [readExcel] using ih
  · by_cases hb : r.allBlank
    · simp [readRow, hb]
    · rw [Bool.not_eq_true] at hb
      by_cases h1 : getField r.certificationLink "" = "" <;>
        by_cases h2 : getField r.certificationLink "" = "nan" <;>
          simp [readRow, hb, h1, h2]
  · by_cases hb : r.allBlank
    · simp [readRow, keptRow, hb]
    · rw [Bool.not_eq_true] at hb
      by_cases h1 : getField r.certificationLink "" = "" <;>
        by_cases h2 : getField r.certificationLink "" = "nan" <;>
          simp [readRow, keptRow, hb, h1, h2]

/-- C4 counterexample: at the literal input "None" — non-blank, and with
lower-cased stripped form "none", not a truthy token — the code normalizes
to "yes" while the claim's stated rule yields "no". -/
theorem C4_counterexample :
    normalizeBadge (some (some "None")) = "yes" ∧
    claimBadgeNormalize (some (some "None")) = "no" := by decide

/-- C4 (amended): the badge normalization yields "yes" exactly for an absent
value, a NaN cell, one of the literal values "", " ", "None", "none", or a
value whose lower-cased stripped form is a truthy token, and yields "no" for
everything else; in particular "Y", "1", "TRUE", "" and an absent value give
"yes" and "no", "2", "nope" give "no". -/
theorem C4_badge_normalization (c : Option Cell) :
    (normalizeBadge c = "yes" ↔
      c = none ∨ c = some none ∨
      (∃ v, c = some (some v) ∧
        (v = "" ∨ v = " " ∨ v = "None" ∨ v = "none" ∨
          pyLower (pyStrip v) ∈ truthyTokens))) ∧
    (normalizeBadge c = "yes" ∨ normalizeBadge c = "no") ∧
    normalizeBadge (some (some "Y")) = "yes" ∧
    normalizeBadge (some (some "1")) = "yes" ∧
    normalizeBadge (some (some "TRUE")) = "yes" ∧
    normalizeBadge (some (some "")) = "yes" ∧
    normalizeBadge none = "yes" ∧
    normalizeBadge (some none) = "yes" ∧
    normalizeBadge (some (some "no")) = "no" ∧
    normalizeBadge (some (some "2")) = "no" ∧
    normalizeBadge (some (some "nope")) = "no" := by
  refine ⟨?_, ?_, by decide, by decide, by decide, by decide, by decide,
    by decide, by decide, by decide, by decide⟩
  · match c with
    | none => simp [normalizeBadge]
    | some none => simp [normalizeBadge]
    | some (some v) =>
        by_cases h1 : v = "" ∨ v = " " ∨ v = "None" ∨ v = "none"
        · simp [normalizeBadge, h1]
          tauto
        · by_cases h2 : pyLower (pyStrip v) ∈ truthyTokens <;>
            simp [normalizeBadge, h1, h2] <;> tauto
  · match c with
    | none => left; rfl
    | some none => left; rfl
    | some (some v) =>
        by_cases h1 : v = "" ∨ v = " " ∨ v = "None" ∨ v = "none"
        · left
          simp [normalizeBadge, h1]
        · by_cases h2 : pyLower (pyStrip v) ∈ truthyTokens
          · left
            simp [normalizeBadge, h1, h2]
          · right
            simp [normalizeBadge, h1, h2]

/-- C5 counterexample: when the first attempt fails, the liveness probe
fails and the relaunch also fails, `setup_driver`'s exception propagates out
of `fill_form` after a single submitter invocation — the call produces no
Outcome at all. -/
theorem C5_counterexample :
    (fillForm envRelaunchFail student0 3).result
      = .error (launchFailMsg "no chromedriver") ∧
    (fillForm envRelaunchFail student0 3).result.toOption = none ∧
    (fillForm envRelaunchFail student0 3).invocations = 1 := by decide

/-- C5 (amended): provided the browser probe after each failed attempt
succeeds or the subsequent session relaunch succeeds, `fill_form` returns
exactly one Outcome and propagates no exception; when additionally every
attempt fails, the outcome is Failed, its message carries the last error's
message, the diagnostic screenshot was attempted, and the result never
depends on whether that best-effort screenshot save succeeded. -/
theorem C5_one_outcome (env : RetryEnv) (s : Student)
    (hsafe : ∀ n, env.browserAlive n = true ∨ env.relaunchOk n = true) :
    (∃ o : Outcome, (fillForm env s 3).result = .ok o) ∧
    (∀ e3, (∀ n, ∃ e, env.attemptResult n = .error e) →
      env.attemptResult 3 = .error e3 →
      (fillForm env s 3).result = .ok (failedOutcome s 3 e3) ∧
      (fillForm env s 3).screenshotTried = true) ∧
    (∀ b : Bool,
      (fillForm { env with screenshotOk := b } s 3).result
        = (fillForm env s 3).result) := by
  have hc1 : ¬(env.browserAlive 1 = false ∧ env.relaunchOk 1 = false) := by
    rcases hsafe 1 with h | h <;> simp [h]
  have hc2 : ¬(env.browserAlive 2 = false ∧ env.relaunchOk 2 = false) := by
    rcases hsafe 2 with h | h <;> simp [h]
  refine ⟨?_, ?_, ?_⟩
  · cases h1 : env.attemptResult 1 with
    | ok o => exact ⟨o, by simp [fillForm, fillFormGo, h1]⟩
    | error e1 =>
        cases h2 : env.attemptResult 2 with
        | ok o => exact ⟨o, by simp [fillForm, fillFormGo, h1, h2, hc1]⟩
        | error e2 =>
            cases h3 : env.attemptResult 3 with
            | ok o =>
                exact ⟨o,
                  by simp [fillForm, fillFormGo, h1, h2, h3, hc1, hc2]⟩
            | error e3 =>
                exact ⟨failedOutcome s 3 e3,
                  by simp [fillForm, fillFormGo, h1, h2, h3, hc1, hc2]⟩
  · intro e3 hfail h3
    obtain ⟨e1, h1⟩ := hfail 1
    obtain ⟨e2, h2⟩ := hfail 2
    constructor <;> simp [fillForm, fillFormGo, h1, h2, h3, hc1, hc2]
  · intro b
    exact fillFormGo_screenshot_indep env s 3 b 3 1 "None"

/-- C5 witness: the amended theorem at the concrete always-failing,
responsive-browser environment. -/
theorem C5_one_outcome_witness :
    (∃ o : Outcome, (fillForm envAlwaysFail student0 3).result = .ok o) ∧
    (∀ e3, (∀ n, ∃ e, envAlwaysFail.attemptResult n = .error e) →
      envAlwaysFail.attemptResult 3 = .error e3 →
      (fillForm envAlwaysFail student0 3).result
        = .ok (failedOutcome student0 3 e3) ∧
      (fillForm envAlwaysFail student0 3).screenshotTried = true) ∧
    (∀ b : Bool,
      (fillForm { envAlwaysFail with screenshotOk := b } student0 3).result
        = (fillForm envAlwaysFail student0 3).result) :=
  C5_one_outcome envAlwaysFail student0 (fun _ => Or.inl rfl)

/-- C6 counterexample: with one buffered outcome and the flush enabled, the
first save records `results_count = 1` and flushes the buffer, so the repeat
save with the same counts records `results_count = 0` — a field other than
the timestamp changed between the two identical calls. -/
theorem C6_counterexample :
    (saveCheckpoint 5 10 100 true bufferedStore).checkpointFile
      = some (mkCheckpoint 5 10 100 1) ∧
    (saveCheckpoint 5 10 200 true
        (saveCheckpoint 5 10 100 true bufferedStore)).checkpointFile
      = some (mkCheckpoint 5 10 200 0) := by decide

/-- C6 (amended): saving the same (processed, total) twice always leaves
`processed_count` and `total_count` identical to a single save; beyond the
timestamp only `results_count` can differ, dropping to 0 exactly when the
first save flushed the buffered outcomes, so with the flush disabled or an
empty buffer the two saves differ in the timestamp alone; and each save
overwrites the checkpoint record wholesale, independently of what the file
held before. -/
theorem C6_checkpoint_idempotent (p t n1 n2 : Nat) (b1 b2 : Bool)
    (s : StoreState) (c0 : Option Checkpoint) :
    (saveCheckpoint p t n1 b1 s).checkpointFile
      = some (mkCheckpoint p t n1 s.results.length) ∧
    (saveCheckpoint p t n2 b2 (saveCheckpoint p t n1 b1 s)).checkpointFile
      = some (mkCheckpoint p t n2 (if b1 then 0 else s.results.length)) ∧
    (saveCheckpoint p t n1 b1 { s with checkpointFile := c0 }).checkpointFile
      = (saveCheckpoint p t n1 b1 s).checkpointFile := by
  cases b1 <;> cases b2 <;>
    by_cases h : s.results = [] <;>
      simp [saveCheckpoint, saveResultsIncremental, h, mkCheckpoint]

/-- C7: with choice "auto" the engines are attempted in the fixed order
Chrome, Edge, Firefox and with a specific choice only that engine; the
launch succeeds with the first engine that launches; it raises the terminal
error exactly when every engine in its list failed; and the attempted
engines are precisely the failing ones up to and including the first
success. -/
theorem C7_engine_fallback (launch : Browser → Except String Unit)
    (choice : BrowserChoice) (b : Browser) :
    browsersToTry .auto = [.chrome, .edge, .firefox] ∧
    browsersToTry (.fixed b) = [b] ∧
    (setupDriver launch choice).1.toOption =
      (browsersToTry choice).find? (launchOk launch) ∧
    (setupDriver launch choice).2 =
      (browsersToTry choice).takeWhile (fun x => !launchOk launch x) ++
        ((browsersToTry choice).find? (launchOk launch)).toList ∧
    ((setupDriver launch choice).1.toOption = none ↔
      ∀ x ∈ browsersToTry choice, launchOk launch x = false) := by
  refine ⟨rfl, rfl, (setupDriverGo_spec launch _ "None").1,
    (setupDriverGo_spec launch _ "None").2, ?_⟩
  simp only [setupDriver]
  rw [(setupDriverGo_spec launch (browsersToTry choice) "None").1]
  simp [List.find?_eq_none]

/-- C8: with a positive interval, the counter is strictly below the
threshold after every restart check, the check restarts (and resets)
exactly when the counter has reached the threshold, and along any sequential
run the forms-processed-since-launch counter never exceeds the interval —
at most `interval` forms per browser session. -/
theorem C8_restart_invariant (interval : Nat) (hpos : 0 < interval) :
    (∀ c, (restartBrowserIfNeeded interval c).1 < interval) ∧
    (∀ c, (restartBrowserIfNeeded interval c).2 = true ↔ interval ≤ c) ∧
    (∀ n, counterAfter interval n ≤ interval) := by
  have hstep : ∀ c, (restartBrowserIfNeeded interval c).1 < interval := by
    intro c
    by_cases h : interval ≤ c <;> simp [restartBrowserIfNeeded, h] <;> omega
  refine ⟨hstep, ?_, ?_⟩
  · intro c
    by_cases h : interval ≤ c <;> simp [restartBrowserIfNeeded, h]
  · intro n
    induction n with
    | zero => simp [counterAfter]
    | succ m ih =>
        have := hstep (counterAfter interval m)
        simp only [counterAfter, processOneForm]
        omega

/-- C8 witness: the invariant at the production interval of 100. -/
theorem C8_restart_invariant_witness :
    (restartBrowserIfNeeded 100 100).1 < 100 ∧
    ((restartBrowserIfNeeded 100 100).2 = true ↔ 100 ≤ 100) ∧
    counterAfter 100 7 ≤ 100 :=
  ⟨(C8_restart_invariant 100 (by decide)).1 100,
   (C8_restart_invariant 100 (by decide)).2.1 100,
   (C8_restart_invariant 100 (by decide)).2.2 7⟩

/-- C9: a row whose certification-link cell stringifies to the literal text
"nan" is skipped with a warning, exactly like a row with a blank (NaN) link
cell — neither yields a task record. -/
theorem C9_nan_link_skipped (r rblank : RawRow)
    (h : r.certificationLink = some (some "nan"))
    (hb : rblank.certificationLink = some none) :
    readRow r = .skippedWithWarning ∧
    (readRow rblank = .skippedWithWarning ∨
      readRow rblank = .skippedSilently) ∧
    (readRow r).toRecord = (readRow rblank).toRecord := by
  have hnan : getField (some (some "nan")) "" = "nan" := by decide
  have hblk : getField (some none) "" = "nan" := by decide
  have h1 : r.allBlank = false := by simp [RawRow.allBlank, h]
  have hr : readRow r = .skippedWithWarning := by
    simp [readRow, h1, h, hnan]
  have hr2 : readRow rblank = .skippedWithWarning ∨
      readRow rblank = .skippedSilently := by
    by_cases h2 : rblank.allBlank
    · right
      simp [readRow, h2]
    · left
      rw [Bool.not_eq_true] at h2
      simp [readRow, h2, hb, hblk]
  refine ⟨hr, hr2, ?_⟩
  rcases hr2 with h2 | h2 <;> simp [hr, h2, RowResult.toRecord]

/-- C9 witness: the theorem at a concrete row with a literal "nan" link and
its blank-link counterpart. -/
theorem C9_nan_link_skipped_witness :
    readRow rowNanLink = .skippedWithWarning ∧
    (readRow (mkRow (some (some "Ann")) (some (some "Lee"))
        (some (some "a@b.com")) none (some none) none [])
          = .skippedWithWarning ∨
     readRow (mkRow (some (some "Ann")) (some (some "Lee"))
        (some (some "a@b.com")) none (some none) none [])
          = .skippedSilently) ∧
    (readRow rowNanLink).toRecord
      = (readRow (mkRow (some (some "Ann")) (some (some "Lee"))
          (some (some "a@b.com")) none (some none) none [])).toRecord :=
  C9_nan_link_skipped rowNanLink
    (mkRow (some (some "Ann")) (some (some "Lee")) (some (some "a@b.com"))
      none (some none) none []) rfl rfl

/-- C10: with an empty in-memory outcome list the terminal `save_results`
returns early after logging the warning, changing nothing — the existing
results file is untouched and no timestamped snapshot is created. -/
theorem C10_empty_save_skips (s : StoreState) (h : s.results = []) :
    saveResultsFinal s = (s, true) := by
  simp [saveResultsFinal, h]

/-- C10 witness: the theorem at a store with an empty buffer and an existing
results file. -/
theorem C10_empty_save_skips_witness :
    saveResultsFinal drainedStore = (drainedStore, true) :=
  C10_empty_save_skips drainedStore rfl

end SAS
